import Mathlib

/-!
Shallow embedding of the request handlers of `src/routes/api.ts`
(a Cloudflare WAF control panel built on Hono).

Each handler is modelled as a pure function from its request inputs and the
outcomes of its external calls (Cloudflare API, KV store) to the JSON
response it produces.  External calls that can throw are passed in as
`Except Unit _` values; the JavaScript truthiness test `!x` on a
`string | undefined` value is `truthy : Option String → Bool` (an absent
value and the empty string are both falsy).  Handlers that submit a ruleset
update upstream additionally return the payload they submit (`none` when
the update call is never reached), so that theorems can speak about what
was sent.
-/

namespace WafCtl

/-- A zone as in `src/types.ts` (`interface Zone`): `id` and `name`. -/
structure Zone where
  id : String
  name : String
deriving DecidableEq

/-- A WAF rule as in `src/types.ts` (`interface WAFRule`): every field is
optional (`id?`, `version?`, ..., `enabled?`), mirroring the defensive
representation of partial upstream responses. -/
structure WAFRule where
  id : Option String := none
  version : Option String := none
  action : Option String := none
  description : Option String := none
  enabled : Option Bool := none
  ref : Option String := none
  last_updated : Option String := none
deriving DecidableEq

/-- The response of `cf.rulesets.phases.get("http_request_firewall_custom", ...)`:
a ruleset `id` and a possibly absent `rules` array (the handlers test
`!phaseResponse.rules || !phaseResponse.rules.length`). -/
structure PhaseResponse where
  id : String
  rules : Option (List WAFRule) := none
deriving DecidableEq

/-- The value returned by `cf.rulesets.update` (passed through verbatim as
`result` by the handlers; its contents are never inspected). -/
structure Ruleset where
  id : String
  rules : List WAFRule
deriving DecidableEq

/-- The argument of `cf.rulesets.update(rulesetId, { zone_id, rules })`:
what a handler submits upstream when it updates a ruleset. -/
structure UpdatePayload where
  rulesetId : String
  zone_id : String
  rules : List WAFRule
deriving DecidableEq

/-- The payload of `GET /api/waf/rules`: `{ rulesetId, rules }`. -/
structure WAFRuleResponse where
  rulesetId : String
  rules : List WAFRule
deriving DecidableEq

/-- The settings record (`interface Settings` in `src/types.ts`).  The
interface declares five `string` fields, but at runtime the record comes
from `body as Settings` or `JSON.parse`, where any field may be
`undefined`; `Option String` models that. -/
structure Settings where
  apiKey : Option String := none
  zoneId : Option String := none
  rulesetId : Option String := none
  ruleId : Option String := none
  secret : Option String := none
deriving DecidableEq

/-- The body of `POST /api/waf/rules/enable`:
`{ zoneId, ruleId, rulesetId, enabled }`, each possibly absent. -/
structure EnableBody where
  zoneId : Option String := none
  ruleId : Option String := none
  rulesetId : Option String := none
  enabled : Option Bool := none
deriving DecidableEq

/-- The uniform response envelope `{ success, result?, error?, message? }`
together with the HTTP status (`c.json(body)` defaults to 200). -/
structure ApiResponse (T : Type) where
  status : Nat := 200
  success : Bool
  result : Option T := none
  error : Option String := none
  message : Option String := none
deriving DecidableEq

/-- JavaScript truthiness of a `string | undefined` value, as used by the
handlers' `!x` guards: `undefined` and `""` are falsy. -/
def truthy : Option String → Bool
  | none => false
  | some s => s != ""

/-- Lower-case hexadecimal digit, for `\uXXXX` escapes. -/
def hexDigit (n : Nat) : Char :=
  if n < 10 then Char.ofNat (48 + n) else Char.ofNat (87 + (n % 16))

/-- Four-digit lower-case hexadecimal rendering of a code point. -/
def hex4 (n : Nat) : String :=
  String.mk [hexDigit (n / 4096 % 16), hexDigit (n / 256 % 16),
             hexDigit (n / 16 % 16), hexDigit (n % 16)]

/-- `JSON.stringify` escaping of a single character inside a string value. -/
def jsonEscapeChar (c : Char) : String :=
  if c = '"' then "\\\""
  else if c = '\\' then "\\\\"
  else if c = '\n' then "\\n"
  else if c = '\r' then "\\r"
  else if c = '\t' then "\\t"
  else if c = Char.ofNat 8 then "\\b"
  else if c = Char.ofNat 12 then "\\f"
  else if c.toNat < 32 then "\\u" ++ hex4 c.toNat
  else String.singleton c

/-- `JSON.stringify` escaping of a string value (without the quotes). -/
def jsonEscape (s : String) : String :=
  s.data.foldl (fun acc c => acc ++ jsonEscapeChar c) ""

/-- One `"name":"value"` member of a JSON object, or nothing when the value
is `undefined` (`JSON.stringify` drops `undefined`-valued keys). -/
def jsonField (name : String) : Option String → List String
  | none => []
  | some v => ["\"" ++ name ++ "\":\"" ++ jsonEscape v ++ "\""]

/-- The string `POST /api/settings` writes to KV:
`JSON.stringify({ apiKey, zoneId, secret, rulesetId, ruleId })`
(key order as written in the source; `undefined` keys dropped). -/
def serializeSettings (s : Settings) : String :=
  "\x7b" ++ String.intercalate ","
    (jsonField "apiKey" s.apiKey ++ jsonField "zoneId" s.zoneId ++
     jsonField "secret" s.secret ++ jsonField "rulesetId" s.rulesetId ++
     jsonField "ruleId" s.ruleId) ++ "\x7d"

/-- `GET /api/zones`: requires the `X-API-Key` header, then lists zones.
`zonesResult` is the outcome of `cf.zones.list()`. -/
def getZones (apiKey : Option String) (zonesResult : Except Unit (List Zone)) :
    ApiResponse (List Zone) :=
  if !truthy apiKey then
    { status := 401, success := false, error := some "API key is required", result := none }
  else
    match zonesResult with
    | .ok zones => { status := 200, success := true, result := some zones, error := none }
    | .error _ => { status := 400, success := false, error := some "Failed to fetch zones", result := none }

/-- `GET /api/waf/rules`: requires `X-API-Key` and `zoneId`, fetches the
`http_request_firewall_custom` phase, and 404s when it has no rules. -/
def getWafRules (apiKey zoneId : Option String)
    (phase : Except Unit PhaseResponse) : ApiResponse WAFRuleResponse :=
  if !truthy apiKey || !truthy zoneId then
    { status := 401, success := false, error := some "API key and Zone ID are required" }
  else
    match phase with
    | .error _ =>
        { status := 500, success := false, result := none, error := some "Failed to fetch WAF rules" }
    | .ok p =>
        match p.rules with
        | none =>
            { status := 404, success := false, error := some "No WAF rules found", result := none }
        | some rs =>
            if rs.isEmpty then
              { status := 404, success := false, error := some "No WAF rules found", result := none }
            else
              { status := 200, success := true,
                result := some { rulesetId := p.id, rules := rs }, error := none }

/-- The in-place mutation `rule.enabled = enabled` of the enable/disable and
webhook handlers, as a functional update. -/
def setEnabled (r : WAFRule) (v : Option Bool) : WAFRule :=
  { r with enabled := v }

/-- The validation guard of `POST /api/waf/rules/enable`:
`!apiKey || !zoneId || !ruleId || !rulesetId` (the `enabled` field is not
inspected). -/
def enableValidationFails (apiKey : Option String) (b : EnableBody) : Bool :=
  !truthy apiKey || !truthy b.zoneId || !truthy b.ruleId || !truthy b.rulesetId

/-- `POST /api/waf/rules/enable`.  Returns the response together with the
payload submitted to `cf.rulesets.update` (`none` when the update call is
never reached).  `phase` is the outcome of the phase fetch, `updateResult`
the outcome of the update call; both throw into the same `catch` (500). -/
def enableRule (apiKey : Option String) (b : EnableBody)
    (phase : Except Unit PhaseResponse) (updateResult : Except Unit Ruleset) :
    ApiResponse Ruleset × Option UpdatePayload :=
  if enableValidationFails apiKey b then
    ({ status := 400, success := false, error := some "Missing required parameters" }, none)
  else
    match phase with
    | .error _ =>
        ({ status := 500, success := false, error := some "Failed to update WAF rules" }, none)
    | .ok p =>
        match p.rules with
        | none =>
            ({ status := 404, success := false, error := some "No WAF rules found" }, none)
        | some rs =>
            if rs.isEmpty then
              ({ status := 404, success := false, error := some "No WAF rules found" }, none)
            else
              match rs.find? (fun r => r.id == b.ruleId) with
              | none =>
                  ({ status := 404, success := false, error := some "Rule not found" }, none)
              | some rule =>
                  let updated := setEnabled rule b.enabled
                  let payload : UpdatePayload :=
                    { rulesetId := b.rulesetId.getD "", zone_id := b.zoneId.getD "",
                      rules := [updated] }
                  match updateResult with
                  | .error _ =>
                      ({ status := 500, success := false,
                         error := some "Failed to update WAF rules" }, some payload)
                  | .ok u =>
                      ({ status := 200, success := true, result := some u,
                         message := some ("Successfully "
                           ++ (if b.enabled.getD false then "enabled" else "disabled")
                           ++ " WAF rule " ++ b.ruleId.getD "") }, some payload)

/-- `GET /api/settings`: reads the `waf-settings` KV record.  `kvRead` is the
outcome of `SETTINGS.get` (the store holds the parsed record; it is only
ever written by `POST /api/settings`). -/
def getSettings (kvRead : Except Unit (Option Settings)) : ApiResponse Settings :=
  match kvRead with
  | .error _ =>
      { status := 500, success := false, error := some "Failed to fetch settings" }
  | .ok none => { status := 200, success := true, result := none }
  | .ok (some s) => { status := 200, success := true, result := some s }

/-- The record `POST /api/settings` persists and returns:
`{ apiKey, zoneId, secret, rulesetId: rulesetId || "", ruleId: ruleId || "" }`. -/
def normalizeSettings (b : Settings) : Settings :=
  { apiKey := b.apiKey, zoneId := b.zoneId, secret := b.secret,
    rulesetId := some (b.rulesetId.getD ""), ruleId := some (b.ruleId.getD "") }

/-- `POST /api/settings`.  `zoneCheck` is the outcome of `cf.zones.get`,
`phase` that of the phase fetch (reached only when `ruleId && rulesetId`),
`putResult` that of the KV write.  Returns the response together with the
record handed to `SETTINGS.put` (`none` when the write is never attempted). -/
def saveSettings (b : Settings) (zoneCheck : Except Unit Unit)
    (phase : Except Unit PhaseResponse) (putResult : Except Unit Unit) :
    ApiResponse Settings × Option Settings :=
  if !truthy b.apiKey || !truthy b.zoneId then
    ({ status := 400, success := false, error := some "Missing required parameters" }, none)
  else
    match zoneCheck with
    | .error _ =>
        ({ status := 400, success := false, error := some "Invalid API key or zone ID" }, none)
    | .ok _ =>
        if truthy b.ruleId && truthy b.rulesetId then
          match phase with
          | .error _ =>
              ({ status := 400, success := false,
                 error := some "Invalid API key or zone ID" }, none)
          | .ok p =>
              if (p.rules.getD []).any (fun r => r.id == b.ruleId) then
                match putResult with
                | .error _ =>
                    ({ status := 500, success := false,
                       error := some "Failed to save settings" }, some (normalizeSettings b))
                | .ok _ =>
                    ({ status := 200, success := true,
                       result := some (normalizeSettings b) }, some (normalizeSettings b))
              else
                ({ status := 400, success := false, error := some "Invalid rule ID" }, none)
        else
          match putResult with
          | .error _ =>
              ({ status := 500, success := false,
                 error := some "Failed to save settings" }, some (normalizeSettings b))
          | .ok _ =>
              ({ status := 200, success := true,
                 result := some (normalizeSettings b) }, some (normalizeSettings b))

/-- `POST /api/webhook`.  `secretHeader` is the `cf-webhook-auth` header,
`kvRead` the outcome of reading `waf-settings` (the stored record; the raw
string the handler sees is its serialization), `phase` and `updateResult`
the outcomes of the two upstream calls.  Returns the response together with
the payload submitted to `cf.rulesets.update` (`none` when never reached). -/
def webhookPost (secretHeader : Option String)
    (kvRead : Except Unit (Option Settings))
    (phase : Except Unit PhaseResponse) (updateResult : Except Unit Ruleset) :
    ApiResponse Ruleset × Option UpdatePayload :=
  if !truthy secretHeader then
    ({ status := 401, success := false, error := some "Access denied" }, none)
  else
    match kvRead with
    | .error _ =>
        ({ status := 500, success := false,
           error := some "Failed to process webhook request" }, none)
    | .ok none =>
        ({ status := 404, success := false, error := some "No settings found" }, none)
    | .ok (some s) =>
        if some (serializeSettings s) != s.secret then
          ({ status := 401, success := false, error := some "Access denied" }, none)
        else if !truthy s.apiKey || !truthy s.zoneId || !truthy s.rulesetId || !truthy s.ruleId then
          ({ status := 400, success := false, error := some "Incomplete settings found" }, none)
        else
          match phase with
          | .error _ =>
              ({ status := 500, success := false,
                 error := some "Failed to process webhook request" }, none)
          | .ok p =>
              match p.rules with
              | none =>
                  ({ status := 404, success := false, error := some "No WAF rules found" }, none)
              | some rs =>
                  if rs.isEmpty then
                    ({ status := 404, success := false,
                       error := some "No WAF rules found" }, none)
                  else
                    match rs.find? (fun r => r.id == s.ruleId) with
                    | none =>
                        ({ status := 404, success := false, error := some "Rule not found" }, none)
                    | some rule =>
                        let updated := setEnabled rule (some true)
                        let payload : UpdatePayload :=
                          { rulesetId := s.rulesetId.getD "", zone_id := s.zoneId.getD "",
                            rules := [updated] }
                        match updateResult with
                        | .error _ =>
                            ({ status := 500, success := false,
                               error := some "Failed to process webhook request" }, some payload)
                        | .ok u =>
                            ({ status := 200, success := true, result := some u,
                               message := some ("Successfully enabled WAF rule "
                                 ++ s.ruleId.getD "") }, some payload)

end WafCtl

namespace WafCtl

/-! ### Concrete fixtures used by witnesses and counterexamples -/

/-- A disabled rule with id `r1`. -/
def sampleRule : WAFRule := { id := some "r1", enabled := some false }

/-- A phase response whose ruleset `rs1` holds exactly `sampleRule`. -/
def samplePhase : PhaseResponse := { id := "rs1", rules := some [sampleRule] }

/-- A stand-in for the value `cf.rulesets.update` returns. -/
def sampleUpdate : Ruleset := { id := "rs1", rules := [] }

/-- A fully populated settings record, as in the spec's concrete scenario. -/
def sampleSettings : Settings :=
  { apiKey := some "k1", zoneId := some "z1", rulesetId := some "rs1",
    ruleId := some "r1", secret := some "s1" }

/-- A save-settings body with only the required fields. -/
def minimalBody : Settings := { apiKey := some "k1", zoneId := some "z1" }

/-- An absent value is falsy. -/
theorem truthy_none : truthy none = false := rfl

end WafCtl

namespace WafCtl

/-- C1: the webhook handler of `src/routes/api.ts` compares the raw
serialized settings string, not the caller-supplied `cf-webhook-auth`
header, against the stored `secret` (`if (settingsStr !== secret)`).  With
the spec's concrete settings record stored and the header equal to the
stored secret `"s1"`, the handler still answers `401 Access denied` and
never submits an update, contradicting the claim that a matching header
proceeds past the secret check. -/
theorem webhook_matching_secret_still_denied :
    sampleSettings.secret = some "s1" ∧
    webhookPost (some "s1") (.ok (some sampleSettings)) (.ok samplePhase) (.ok sampleUpdate)
      = ({ status := 401, success := false, error := some "Access denied" }, none) := by
  constructor
  · rfl
  · decide

end WafCtl

namespace WafCtl

/-- C2 counterexample: an enable/disable request with a well-formed body but
no `X-API-Key` header is answered with status `400 Missing required
parameters`, not `401`, because the handler folds the credential check into
its missing-parameters guard. -/
theorem enable_no_credential_counterexample :
    (enableRule none
        { zoneId := some "z1", ruleId := some "r1", rulesetId := some "rs1",
          enabled := some true }
        (.ok samplePhase) (.ok sampleUpdate)).1
      = { status := 400, success := false, error := some "Missing required parameters" } ∧
    (enableRule none
        { zoneId := some "z1", ruleId := some "r1", rulesetId := some "rs1",
          enabled := some true }
        (.ok samplePhase) (.ok sampleUpdate)).1.status ≠ 401 := by
  constructor
  · decide
  · decide

/-- C2 (amended): with no credential header, list-zones, get-WAF-rules and
the webhook answer `401` with `success:false`, while enable/disable answers
`400` with `success:false` (its credential check is folded into the
missing-parameters guard), whatever the rest of the request and the
external world look like. -/
theorem no_credential_responses (zonesResult : Except Unit (List Zone))
    (zoneId : Option String) (phase phase2 phase3 : Except Unit PhaseResponse)
    (b : EnableBody) (upd upd2 : Except Unit Ruleset)
    (kv : Except Unit (Option Settings)) :
    (getZones none zonesResult).status = 401 ∧ (getZones none zonesResult).success = false ∧
    (getWafRules none zoneId phase).status = 401 ∧
    (getWafRules none zoneId phase).success = false ∧
    (webhookPost none kv phase2 upd2).1.status = 401 ∧
    (webhookPost none kv phase2 upd2).1.success = false ∧
    (enableRule none b phase3 upd).1.status = 400 ∧
    (enableRule none b phase3 upd).1.success = false := by
  refine ⟨rfl, rfl, rfl, rfl, rfl, rfl, ?_, ?_⟩ <;>
    simp [enableRule, enableValidationFails, truthy]

/-- C6: get-WAF-rules treats a phase response with no `rules` field and one
with an empty `rules` array identically, and (with both inputs supplied)
that common answer is the `404 No WAF rules found` response — the two
situations are not distinguishable from the response. -/
theorem waf_rules_absent_empty_indistinguishable (apiKey zoneId : Option String)
    (rid : String) :
    getWafRules apiKey zoneId (.ok { id := rid, rules := none })
      = getWafRules apiKey zoneId (.ok { id := rid, rules := some [] }) ∧
    (truthy apiKey = true → truthy zoneId = true →
      getWafRules apiKey zoneId (.ok { id := rid, rules := some [] })
        = { status := 404, success := false, error := some "No WAF rules found",
            result := none }) := by
  constructor
  · simp [getWafRules]
  · intro ha hz
    simp [getWafRules, ha, hz]

/-- C6 witness. -/
theorem waf_rules_absent_empty_indistinguishable_witness :
    truthy (some "k1") = true ∧ truthy (some "z1") = true ∧
    getWafRules (some "k1") (some "z1") (.ok { id := "rs1", rules := some [] })
      = { status := 404, success := false, error := some "No WAF rules found",
          result := none } :=
  ⟨by decide, by decide,
    (waf_rules_absent_empty_indistinguishable (some "k1") (some "z1") "rs1").2
      (by decide) (by decide)⟩

/-- C8: get-settings answers `success:true` with a `null` result when the
record was never written, `success:true` with the record when present, and
`500 Failed to fetch settings` exactly when the underlying KV read throws. -/
theorem settings_absent_not_error :
    getSettings (.ok none) = { status := 200, success := true, result := none } ∧
    (∀ s, getSettings (.ok (some s)) = { status := 200, success := true, result := some s }) ∧
    getSettings (.error ())
      = { status := 500, success := false, error := some "Failed to fetch settings" } ∧
    (∀ kv, (getSettings kv).status = 500 → kv = .error ()) := by
  refine ⟨rfl, fun s => rfl, rfl, fun kv h => ?_⟩
  match kv with
  | .error () => rfl
  | .ok none => simp [getSettings] at h
  | .ok (some s) => simp [getSettings] at h

/-- C8 witness. -/
theorem settings_absent_not_error_witness :
    (getSettings (.error ())).status = 500 ∧
    (Except.error () : Except Unit (Option Settings)) = .error () :=
  ⟨by decide, settings_absent_not_error.2.2.2 (.error ()) (by decide)⟩

end WafCtl

namespace WafCtl

/-- C3 counterexample: saving `{ apiKey: "k1", zoneId: "z1" }` with a valid
zone check persists and returns a record whose `secret` is absent
(`undefined`), not the empty string: only `rulesetId` and `ruleId` are
coerced with `|| ""`, while `secret` is passed through untouched. -/
theorem save_settings_secret_not_coerced :
    (saveSettings minimalBody (.ok ()) (.error ()) (.ok ())).2
      = some { apiKey := some "k1", zoneId := some "z1", rulesetId := some "",
               ruleId := some "", secret := none } ∧
    (saveSettings minimalBody (.ok ()) (.error ()) (.ok ())).1.result
      = some { apiKey := some "k1", zoneId := some "z1", rulesetId := some "",
               ruleId := some "", secret := none } ∧
    (saveSettings minimalBody (.ok ()) (.error ()) (.ok ())).2
      ≠ some { apiKey := some "k1", zoneId := some "z1", rulesetId := some "",
               ruleId := some "", secret := some "" } := by
  refine ⟨by decide, by decide, by decide⟩

/-- C3 (amended): saving a body that has `apiKey` and `zoneId` but omits
`rulesetId`, `ruleId` and `secret` succeeds (for any phase outcome — the
rule check is skipped), and both the returned result and the persisted
record are the normalization of the body with `rulesetId` and `ruleId`
coerced to the empty string and `secret` left absent; a subsequent
get-settings on that record returns it unchanged. -/
theorem save_settings_roundtrip (b : Settings) (phase : Except Unit PhaseResponse)
    (ha : truthy b.apiKey = true) (hz : truthy b.zoneId = true)
    (hrs : b.rulesetId = none) (hr : b.ruleId = none) (hs : b.secret = none) :
    (saveSettings b (.ok ()) phase (.ok ())).1
      = { status := 200, success := true, result := some (normalizeSettings b) } ∧
    (saveSettings b (.ok ()) phase (.ok ())).2 = some (normalizeSettings b) ∧
    normalizeSettings b
      = { apiKey := b.apiKey, zoneId := b.zoneId, rulesetId := some "",
          ruleId := some "", secret := none } ∧
    getSettings (.ok (some (normalizeSettings b)))
      = { status := 200, success := true, result := some (normalizeSettings b) } := by
  refine ⟨?_, ?_, ?_, rfl⟩ <;>
    simp [saveSettings, normalizeSettings, ha, hz, hrs, hr, hs, truthy_none]

/-- C3 witness. -/
theorem save_settings_roundtrip_witness :
    (truthy minimalBody.apiKey = true ∧ truthy minimalBody.zoneId = true ∧
      minimalBody.rulesetId = none ∧ minimalBody.ruleId = none ∧
      minimalBody.secret = none) ∧
    (saveSettings minimalBody (.ok ()) (.error ()) (.ok ())).1
      = { status := 200, success := true, result := some (normalizeSettings minimalBody) } :=
  ⟨⟨by decide, by decide, by decide, by decide, by decide⟩,
    (save_settings_roundtrip minimalBody (.error ()) (by decide) (by decide)
      (by decide) (by decide) (by decide)).1⟩

end WafCtl

namespace WafCtl

/-- C4: with both `ruleId` and `rulesetId` non-empty and no rule of the
zone's custom-firewall phase carrying the requested id, save-settings
answers `400` with `success:false` and never reaches the KV write; and
when `ruleId && rulesetId` is not satisfied the rule-existence check is
skipped entirely — the outcome does not depend on the phase fetch at all. -/
theorem save_settings_rule_existence :
    (∀ (b : Settings) (zc : Except Unit Unit) (p : PhaseResponse)
        (put : Except Unit Unit),
      truthy b.ruleId = true → truthy b.rulesetId = true →
      (∀ r ∈ p.rules.getD [], r.id ≠ b.ruleId) →
      (saveSettings b zc (.ok p) put).1.status = 400 ∧
      (saveSettings b zc (.ok p) put).1.success = false ∧
      (saveSettings b zc (.ok p) put).2 = none) ∧
    (∀ (b : Settings) (zc : Except Unit Unit)
        (phase phase' : Except Unit PhaseResponse) (put : Except Unit Unit),
      ¬(truthy b.ruleId = true ∧ truthy b.rulesetId = true) →
      saveSettings b zc phase put = saveSettings b zc phase' put) := by
  constructor
  · intro b zc p put hr hrs habs
    have hany : ((p.rules.getD []).any (fun r => r.id == b.ruleId)) = false := by
      rw [List.any_eq_false]
      intro r hrm
      simpa using habs r hrm
    cases hguard : (!truthy b.apiKey || !truthy b.zoneId) with
    | true => simp [saveSettings, hguard]
    | false =>
      cases zc with
      | error u => simp [saveSettings, hguard]
      | ok u => simp [saveSettings, hguard, hr, hrs, hany]
  · intro b zc phase phase' put hnot
    have hcond : (truthy b.ruleId && truthy b.rulesetId) = false := by
      cases h1 : truthy b.ruleId <;> cases h2 : truthy b.rulesetId <;> simp_all
    cases hguard : (!truthy b.apiKey || !truthy b.zoneId) with
    | true => simp [saveSettings, hguard]
    | false =>
      cases zc with
      | error u => simp [saveSettings, hguard]
      | ok u => simp [saveSettings, hguard, hcond]

/-- C4 witness. -/
theorem save_settings_rule_existence_witness :
    (truthy sampleSettings.ruleId = true ∧ truthy sampleSettings.rulesetId = true ∧
      (∀ r ∈ (PhaseResponse.mk "rs1" (some [])).rules.getD [],
        r.id ≠ sampleSettings.ruleId) ∧
      (saveSettings sampleSettings (.ok ()) (.ok (PhaseResponse.mk "rs1" (some []))) (.ok ())).1.status = 400 ∧
      (saveSettings sampleSettings (.ok ()) (.ok (PhaseResponse.mk "rs1" (some []))) (.ok ())).2 = none) ∧
    (¬(truthy minimalBody.ruleId = true ∧ truthy minimalBody.rulesetId = true) ∧
      saveSettings minimalBody (.ok ()) (.ok samplePhase) (.ok ())
        = saveSettings minimalBody (.ok ()) (.error ()) (.ok ())) :=
  ⟨⟨by decide, by decide, by decide,
    (save_settings_rule_existence.1 sampleSettings (.ok ()) (PhaseResponse.mk "rs1" (some []))
      (.ok ()) (by decide) (by decide) (by decide)).1,
    (save_settings_rule_existence.1 sampleSettings (.ok ()) (PhaseResponse.mk "rs1" (some []))
      (.ok ()) (by decide) (by decide) (by decide)).2.2⟩,
   ⟨by decide,
    save_settings_rule_existence.2 minimalBody (.ok ()) (.ok samplePhase) (.error ())
      (.ok ()) (by decide)⟩⟩

/-- What an enable/disable submission must look like: the payload, when one
is made, holds exactly the phase rule matching the requested `ruleId`,
with its `enabled` flag set to the requested value — a single rule, never
the whole collection. -/
def enableSubmissionOK (b : EnableBody) (phase : Except Unit PhaseResponse) :
    Option UpdatePayload → Prop
  | none => True
  | some pay => ∃ p r, phase = .ok p ∧ r ∈ p.rules.getD [] ∧ r.id = b.ruleId ∧
      pay.rules = [setEnabled r b.enabled]

/-- What a webhook submission must look like: the payload, when one is
made, holds exactly the phase rule matching the stored `ruleId`, with its
`enabled` flag forced to `true`. -/
def webhookSubmissionOK (kv : Except Unit (Option Settings))
    (phase : Except Unit PhaseResponse) : Option UpdatePayload → Prop
  | none => True
  | some pay => ∃ s p r, kv = .ok (some s) ∧ phase = .ok p ∧ r ∈ p.rules.getD [] ∧
      r.id = s.ruleId ∧ pay.rules = [setEnabled r (some true)]

/-- C5: whenever the enable/disable handler or the webhook handler submits
a ruleset update upstream, the payload contains exactly the one matched
rule with its `enabled` flag set to the requested value (`true` for the
webhook), never the full rule collection. -/
theorem single_rule_update (apiKey : Option String) (b : EnableBody)
    (phase : Except Unit PhaseResponse) (upd : Except Unit Ruleset)
    (sec : Option String) (kv : Except Unit (Option Settings))
    (phase' : Except Unit PhaseResponse) (upd' : Except Unit Ruleset) :
    enableSubmissionOK b phase (enableRule apiKey b phase upd).2 ∧
    webhookSubmissionOK kv phase' (webhookPost sec kv phase' upd').2 := by
  constructor
  · by_cases hval : enableValidationFails apiKey b = true
    · simp [enableRule, hval, enableSubmissionOK]
    · cases phase with
      | error u => simp [enableRule, hval, enableSubmissionOK]
      | ok p =>
        cases hp : p.rules with
        | none => simp [enableRule, hval, hp, enableSubmissionOK]
        | some rs =>
          cases hre : rs.isEmpty with
          | true => simp [enableRule, hval, hp, hre, enableSubmissionOK]
          | false =>
            cases hfind : rs.find? (fun r => r.id == b.ruleId) with
            | none => simp [enableRule, hval, hp, hre, hfind, enableSubmissionOK]
            | some rule =>
              have hmem : rule ∈ rs := List.mem_of_find?_eq_some hfind
              have hid : rule.id = b.ruleId := by
                have h := List.find?_some hfind
                simpa using h
              cases upd with
              | error u =>
                simp only [enableRule, hval, hp, hre, hfind, enableSubmissionOK,
                  if_neg, Bool.false_eq_true, not_false_iff]
                exact ⟨p, rule, rfl, by simp [hp, hmem], hid, rfl⟩
              | ok u =>
                simp only [enableRule, hval, hp, hre, hfind, enableSubmissionOK,
                  if_neg, Bool.false_eq_true, not_false_iff]
                exact ⟨p, rule, rfl, by simp [hp, hmem], hid, rfl⟩
  · by_cases hsec : truthy sec = true
    · cases kv with
      | error u => simp [webhookPost, hsec, webhookSubmissionOK]
      | ok os =>
        cases os with
        | none => simp [webhookPost, hsec, webhookSubmissionOK]
        | some s =>
          by_cases hcmp : (some (serializeSettings s) != s.secret) = true
          · simp [webhookPost, hsec, hcmp, webhookSubmissionOK]
          · by_cases hcomplete :
                (!truthy s.apiKey || !truthy s.zoneId || !truthy s.rulesetId
                  || !truthy s.ruleId) = true
            · simp [webhookPost, hsec, hcmp, hcomplete, webhookSubmissionOK]
            · cases phase' with
              | error u => simp [webhookPost, hsec, hcmp, hcomplete, webhookSubmissionOK]
              | ok p =>
                cases hp : p.rules with
                | none => simp [webhookPost, hsec, hcmp, hcomplete, hp, webhookSubmissionOK]
                | some rs =>
                  cases hre : rs.isEmpty with
                  | true =>
                    simp [webhookPost, hsec, hcmp, hcomplete, hp, hre, webhookSubmissionOK]
                  | false =>
                    cases hfind : rs.find? (fun r => r.id == s.ruleId) with
                    | none =>
                      simp [webhookPost, hsec, hcmp, hcomplete, hp, hre, hfind,
                        webhookSubmissionOK]
                    | some rule =>
                      have hmem : rule ∈ rs := List.mem_of_find?_eq_some hfind
                      have hid : rule.id = s.ruleId := by
                        have h := List.find?_some hfind
                        simpa using h
                      cases upd' with
                      | error u =>
                        simp only [webhookPost, hsec, hcmp, hcomplete, hp, hre, hfind,
                          webhookSubmissionOK, if_neg, Bool.false_eq_true, not_false_iff]
                        exact ⟨s, p, rule, rfl, rfl, by simp [hp, hmem], hid, rfl⟩
                      | ok u =>
                        simp only [webhookPost, hsec, hcmp, hcomplete, hp, hre, hfind,
                          webhookSubmissionOK, if_neg, Bool.false_eq_true, not_false_iff]
                        exact ⟨s, p, rule, rfl, rfl, by simp [hp, hmem], hid, rfl⟩
    · simp [webhookPost, hsec, webhookSubmissionOK]

end WafCtl

namespace WafCtl

/-- An already-enabled rule with id `r1`. -/
def sampleRuleEnabled : WAFRule := { id := some "r1", enabled := some true }

/-- The payload the enable handler submits for `samplePhase` when asked to
enable rule `r1`. -/
def enabledPayload : UpdatePayload :=
  { rulesetId := "rs1", zone_id := "z1", rules := [setEnabled sampleRule (some true)] }

/-- The payload the enable handler submits for `samplePhase` when the body
carries no `enabled` field. -/
def undefinedEnabledPayload : UpdatePayload :=
  { rulesetId := "rs1", zone_id := "z1", rules := [setEnabled sampleRule none] }

/-- C7: enabling is idempotent on the rule's state — setting `enabled` to
`true` makes the resulting rule's flag `true`, setting it twice equals
setting it once, setting it on an already-enabled rule is the identity,
and the enable handler's submitted rule is exactly such a `setEnabled`
update (so re-submitting an already-enabled rule is a no-op update). -/
theorem enable_idempotent :
    (∀ r : WAFRule, (setEnabled r (some true)).enabled = some true) ∧
    (∀ (r : WAFRule) (v : Option Bool), setEnabled (setEnabled r v) v = setEnabled r v) ∧
    (∀ r : WAFRule, r.enabled = some true → setEnabled r (some true) = r) ∧
    (∀ (apiKey : Option String) (b : EnableBody) (phase : Except Unit PhaseResponse)
        (upd : Except Unit Ruleset) (pay : UpdatePayload),
      b.enabled = some true → (enableRule apiKey b phase upd).2 = some pay →
      ∃ r, pay.rules = [setEnabled r (some true)] ∧
        (r.enabled = some true → pay.rules = [r])) := by
  refine ⟨fun r => rfl, fun r v => rfl, ?_, ?_⟩
  · intro r h
    cases r
    simp_all [setEnabled]
  · intro apiKey b phase upd pay htrue hpay
    by_cases hval : enableValidationFails apiKey b = true
    · simp [enableRule, hval] at hpay
    · cases phase with
      | error u => simp [enableRule, hval] at hpay
      | ok p =>
        cases hp : p.rules with
        | none => simp [enableRule, hval, hp] at hpay
        | some rs =>
          cases hre : rs.isEmpty with
          | true => simp [enableRule, hval, hp, hre] at hpay
          | false =>
            cases hfind : rs.find? (fun r => r.id == b.ruleId) with
            | none => simp [enableRule, hval, hp, hre, hfind] at hpay
            | some rule =>
              refine ⟨rule, ?_, ?_⟩
              · cases upd with
                | error u =>
                  simp [enableRule, hval, hp, hre, hfind] at hpay
                  simp [← hpay, htrue]
                | ok u =>
                  simp [enableRule, hval, hp, hre, hfind] at hpay
                  simp [← hpay, htrue]
              · intro hen
                have hone : setEnabled rule (some true) = rule := by
                  cases rule
                  simp_all [setEnabled]
                cases upd with
                | error u =>
                  simp [enableRule, hval, hp, hre, hfind] at hpay
                  simp [← hpay, htrue, hone]
                | ok u =>
                  simp [enableRule, hval, hp, hre, hfind] at hpay
                  simp [← hpay, htrue, hone]

/-- C7 witness. -/
theorem enable_idempotent_witness :
    (sampleRuleEnabled.enabled = some true ∧
      setEnabled sampleRuleEnabled (some true) = sampleRuleEnabled) ∧
    ((enableRule (some "k1")
        { zoneId := some "z1", ruleId := some "r1", rulesetId := some "rs1",
          enabled := some true }
        (.ok samplePhase) (.ok sampleUpdate)).2 = some enabledPayload ∧
      ∃ r, enabledPayload.rules = [setEnabled r (some true)] ∧
        (r.enabled = some true → enabledPayload.rules = [r])) :=
  ⟨⟨by decide, enable_idempotent.2.2.1 sampleRuleEnabled (by decide)⟩,
   ⟨by decide,
    enable_idempotent.2.2.2 (some "k1")
      { zoneId := some "z1", ruleId := some "r1", rulesetId := some "rs1",
        enabled := some true }
      (.ok samplePhase) (.ok sampleUpdate) enabledPayload (by decide) (by decide)⟩⟩

end WafCtl

namespace WafCtl

/-- C9: the enable/disable validation guard never inspects `enabled` — with
the credential header and all three identifiers present (non-empty),
validation passes for every value of `enabled`, including an absent one,
and every rule the handler then submits carries exactly that (possibly
absent) value as its `enabled` flag. -/
theorem enable_validation_ignores_enabled (a z r rs : String)
    (enabled : Option Bool) (phase : Except Unit PhaseResponse)
    (upd : Except Unit Ruleset)
    (ha : a ≠ "") (hz : z ≠ "") (hr : r ≠ "") (hrs : rs ≠ "") :
    enableValidationFails (some a)
      { zoneId := some z, ruleId := some r, rulesetId := some rs, enabled := enabled }
      = false ∧
    (∀ pay, (enableRule (some a)
        { zoneId := some z, ruleId := some r, rulesetId := some rs, enabled := enabled }
        phase upd).2 = some pay →
      ∀ rl ∈ pay.rules, rl.enabled = enabled) := by
  have hval : enableValidationFails (some a)
      { zoneId := some z, ruleId := some r, rulesetId := some rs, enabled := enabled }
      = false := by
    simp [enableValidationFails, truthy, ha, hz, hr, hrs]
  refine ⟨hval, ?_⟩
  intro pay hpay rl hmem
  cases phase with
  | error u => simp [enableRule, hval] at hpay
  | ok p =>
    cases hp : p.rules with
    | none => simp [enableRule, hval, hp] at hpay
    | some rules =>
      cases hre : rules.isEmpty with
      | true => simp [enableRule, hval, hp, hre] at hpay
      | false =>
        cases hfind : rules.find? (fun x => x.id == some r) with
        | none => simp [enableRule, hval, hp, hre, hfind] at hpay
        | some rule =>
          cases upd with
          | error u =>
            simp [enableRule, hval, hp, hre, hfind] at hpay
            rw [← hpay] at hmem
            simp at hmem
            rw [hmem]
            rfl
          | ok u =>
            simp [enableRule, hval, hp, hre, hfind] at hpay
            rw [← hpay] at hmem
            simp at hmem
            rw [hmem]
            rfl

/-- C9 witness. -/
theorem enable_validation_ignores_enabled_witness :
    (("k1" : String) ≠ "" ∧ ("z1" : String) ≠ "" ∧ ("r1" : String) ≠ "" ∧
      ("rs1" : String) ≠ "") ∧
    enableValidationFails (some "k1")
      { zoneId := some "z1", ruleId := some "r1", rulesetId := some "rs1",
        enabled := none } = false ∧
    (∀ rl ∈ undefinedEnabledPayload.rules, rl.enabled = none) :=
  ⟨⟨by decide, by decide, by decide, by decide⟩,
   (enable_validation_ignores_enabled "k1" "z1" "r1" "rs1" none
      (.ok samplePhase) (.ok sampleUpdate)
      (by decide) (by decide) (by decide) (by decide)).1,
   (enable_validation_ignores_enabled "k1" "z1" "r1" "rs1" none
      (.ok samplePhase) (.ok sampleUpdate)
      (by decide) (by decide) (by decide) (by decide)).2
     undefinedEnabledPayload (by decide)⟩

/-- C10: whenever get-WAF-rules answers `success:true`, the phase fetch
succeeded, its rules array is present and non-empty, and the result is
present with `rulesetId` equal to the fetched phase ruleset's id and
exactly those rules. -/
theorem waf_rules_success_invariant (apiKey zoneId : Option String)
    (phase : Except Unit PhaseResponse)
    (h : (getWafRules apiKey zoneId phase).success = true) :
    ∃ p rules, phase = .ok p ∧ p.rules = some rules ∧ rules ≠ [] ∧
      (getWafRules apiKey zoneId phase).result
        = some { rulesetId := p.id, rules := rules } ∧
      (getWafRules apiKey zoneId phase).status = 200 := by
  cases hguard : (!truthy apiKey || !truthy zoneId) with
  | true => simp [getWafRules, hguard] at h
  | false =>
    cases phase with
    | error u => simp [getWafRules, hguard] at h
    | ok p =>
      cases hp : p.rules with
      | none => simp [getWafRules, hguard, hp] at h
      | some rules =>
        cases rules with
        | nil => simp [getWafRules, hguard, hp] at h
        | cons hd tl =>
          exact ⟨p, hd :: tl, rfl, hp, by simp,
            by simp [getWafRules, hguard, hp], by simp [getWafRules, hguard, hp]⟩

/-- C10 witness. -/
theorem waf_rules_success_invariant_witness :
    ∃ p rules, (Except.ok samplePhase : Except Unit PhaseResponse) = .ok p ∧
      p.rules = some rules ∧ rules ≠ [] ∧
      (getWafRules (some "k1") (some "z1") (.ok samplePhase)).result
        = some { rulesetId := p.id, rules := rules } ∧
      (getWafRules (some "k1") (some "z1") (.ok samplePhase)).status = 200 :=
  waf_rules_success_invariant (some "k1") (some "z1") (.ok samplePhase) (by decide)

end WafCtl
